import Mathlib

/-!
Verification of the lead-generation pipeline implemented in
src/app/api/email/send/route.ts (Next.js route handler).

The embedding models JavaScript objects with string-valued fields as
association lists (first matching key wins, as `obj.field` reads the single
binding an object literal carries), JavaScript truthiness of strings
(the empty string is falsy), and the route's control flow over an explicit
environment describing the behaviour of the external collaborators
(Apify scrape runs, Google Custom Search, the OpenAI scoring model, the
Supabase insert).
-/

/-- Model of a raw JavaScript object with string-valued fields: an
association list from field name to value.  A missing field is an absent
key; reading it through the idiom `obj.f || fallback` yields the fallback. -/
abbrev Raw : Type := List (String × String)

/-- Read field `k` of object `o`, with the empty string standing for the
JavaScript `undefined` of a missing field (both are falsy, and every use in
the route immediately defaults a falsy read with an empty-string literal). -/
def jsGet (o : Raw) (k : String) : String :=
  ((o.find? (fun p => p.1 == k)).map Prod.snd).getD ""

/-- Whether object `o` carries field `k` at all (models `"k" in obj`). -/
def jsHas (o : Raw) (k : String) : Bool :=
  (o.find? (fun p => p.1 == k)).isSome

/-- JavaScript `a || b` on strings: the empty string is falsy. -/
def jsOr (a b : String) : String :=
  if a = "" then b else a

/-- JavaScript `v || d` where `v` is a possibly-absent string field
(`none` models `undefined`; both `undefined` and `""` are falsy). -/
def jsOrOpt (v : Option String) (d : String) : String :=
  match v with
  | none => d
  | some s => if s = "" then d else s

/-- JavaScript `v || d` where `v` is a possibly-absent number field
(`none` models `undefined`; both `undefined` and `0` are falsy). -/
def jsOrNum (v : Option Nat) (d : Nat) : Nat :=
  match v with
  | none => d
  | some x => if x = 0 then d else x

/-- Strip leading and trailing whitespace from a character list. -/
def trimChars (l : List Char) : List Char :=
  ((l.dropWhile Char.isWhitespace).reverse.dropWhile Char.isWhitespace).reverse

/-- Model of JavaScript `s.trim()`: strip whitespace from both ends. -/
def strTrim (s : String) : String :=
  String.mk (trimChars s.data)

/-- Whether `pat` occurs as a contiguous run inside `l`. -/
def charsInclude (pat : List Char) : List Char → Bool
  | [] => pat.isEmpty
  | c :: rest => pat.isPrefixOf (c :: rest) || charsInclude pat rest

/-- Model of JavaScript `s.includes(pat)`: substring occurrence. -/
def strIncludes (s pat : String) : Bool :=
  charsInclude pat.data s.data

/-- Normalizer applied to each Apollo scrape result
(src/app/api/email/send/route.ts lines 775-789).  `uuid` stands for the
`randomUUID()` call and `now` for `new Date().toISOString()`. -/
def normalizeApollo (uuid now : String) (person : Raw) : Raw :=
  [("id", uuid),
   ("firstName", jsGet person "firstName"),
   ("lastName", jsGet person "lastName"),
   ("fullName", jsOr (jsGet person "fullName")
      (strTrim (jsGet person "firstName" ++ " " ++ jsGet person "lastName"))),
   ("email", jsGet person "email"),
   ("jobTitle", jsOr (jsGet person "jobTitle") (jsGet person "headline")),
   ("companyName", jsGet person "companyName"),
   ("companyIndustry", jsGet person "companyIndustry"),
   ("companySize", jsGet person "companySize"),
   ("location", jsGet person "location"),
   ("linkedin_url", jsOr (jsGet person "linkedinUrl") (jsGet person "profileUrl")),
   ("createdAt", now),
   ("email_status", "not_sent")]

/-- Normalizer applied to each LinkedIn profile-scrape result
(src/app/api/email/send/route.ts lines 886-900); the `email` field is
hard-coded empty because LinkedIn scraping provides no emails. -/
def normalizeGoogle (uuid now : String) (profile : Raw) : Raw :=
  [("id", uuid),
   ("firstName", jsGet profile "firstName"),
   ("lastName", jsGet profile "lastName"),
   ("fullName", jsOr (jsGet profile "fullName")
      (strTrim (jsGet profile "firstName" ++ " " ++ jsGet profile "lastName"))),
   ("email", ""),
   ("jobTitle", jsOr (jsGet profile "headline") (jsGet profile "position")),
   ("companyName", jsGet profile "company"),
   ("companyIndustry", jsGet profile "industry"),
   ("companySize", ""),
   ("location", jsGet profile "location"),
   ("linkedin_url", jsGet profile "url"),
   ("createdAt", now),
   ("email_status", "not_sent")]

/-- Terminal status reported by an Apify run-status poll: `SUCCEEDED`,
`FAILED`, or anything else (the loop keeps polling). -/
inductive JobStatus where
  | succeeded
  | failed
  | running
deriving DecidableEq

/-- Outcome of the poll-until-terminal loop, carrying the total milliseconds
slept (each iteration sleeps 2000 ms before checking the status). -/
inductive PollResult (α : Type) where
  | success (res : α) (elapsedMs : Nat)
  | jobFailed (elapsedMs : Nat)
  | timeout (elapsedMs : Nat)
deriving DecidableEq

/-- The poll loop of src/app/api/email/send/route.ts lines 760-797 and
871-908: sleep 2000 ms, check the run status; `SUCCEEDED` fetches the
dataset, `FAILED` throws, anything else increments `attempts`; when
`attempts` reaches `maxAttempts` the loop exits and a timeout is thrown.
`statuses i` is the status observed by the i-th check and `fetch i` the
dataset fetched if the i-th check sees success; `fuel` is the number of
iterations remaining (`maxAttempts - attempts`). -/
def pollGo {α : Type} (statuses : Nat → JobStatus) (fetch : Nat → α) :
    Nat → Nat → Nat → PollResult α
  | _, elapsed, 0 => .timeout elapsed
  | attempts, elapsed, fuel + 1 =>
    match statuses attempts with
    | .succeeded => .success (fetch attempts) (elapsed + 2000)
    | .failed => .jobFailed (elapsed + 2000)
    | .running => pollGo statuses fetch (attempts + 1) (elapsed + 2000) fuel

/-- The loop as both search functions instantiate it: `attempts = 0`,
`maxAttempts = 30`, 2000 ms sleep per iteration. -/
def pollUntilTerminal {α : Type} (statuses : Nat → JobStatus) (fetch : Nat → α) :
    PollResult α :=
  pollGo statuses fetch 0 0 30

/-- Behaviour of every external collaborator the route talks to, plus the
configured-credentials flags, for one request.  `apolloUuid i` / `googleUuid i`
stand for the `randomUUID()` generated for the i-th mapped record and `now`
for the `new Date().toISOString()` timestamps. -/
structure ProviderEnv where
  apifyTokensConfigured : Bool
  googleKeysConfigured : Bool
  openaiKeySet : Bool
  apolloSubmitOk : Bool
  apolloStatuses : Nat → JobStatus
  apolloDataset : List Raw
  apolloUuid : Nat → String
  googleSearchOk : Bool
  googleLinks : List String
  googleSubmitOk : Bool
  googleStatuses : Nat → JobStatus
  googleDataset : List Raw
  googleUuid : Nat → String
  insertError : Bool
  now : String

/-- Model of `searchApolloLeads` (route.ts lines 717-803): credential check,
actor-run submission, poll until terminal, then normalization of the dataset.
Thrown errors become `Except.error` with the thrown message (the interpolated
HTTP status text of the submit failure is elided). -/
def searchApolloLeads (e : ProviderEnv) : Except String (List Raw) :=
  if ¬ e.apifyTokensConfigured then .error "Apify API tokens not configured"
  else if ¬ e.apolloSubmitOk then .error "Apify run failed"
  else
    match pollUntilTerminal e.apolloStatuses (fun _ => e.apolloDataset) with
    | .success ds _ => .ok (ds.enum.map (fun p => normalizeApollo (e.apolloUuid p.1) e.now p.2))
    | .jobFailed _ => .error "Apify actor run failed"
    | .timeout _ => .error "Apify actor run timeout"

/-- Model of `searchGoogleLeads` (route.ts lines 806-914): credential check,
Google Custom Search (`e.googleLinks` are the returned item links; an empty
item list short-circuits to an empty result), LinkedIn-URL filtering capped at
10, enrichment actor-run submission, poll until terminal, normalization. -/
def searchGoogleLeads (e : ProviderEnv) : Except String (List Raw) :=
  if ¬ (e.googleKeysConfigured ∧ e.apifyTokensConfigured) then
    .error "Google API key, CSE ID, or Apify tokens not configured"
  else if ¬ e.googleSearchOk then .error "Google Search API error"
  else if e.googleLinks.isEmpty then .ok []
  else
    let urls := (e.googleLinks.filter (fun u => strIncludes u "linkedin.com/in/")).take 10
    if urls.isEmpty then .ok []
    else if ¬ e.googleSubmitOk then .error "Apify run failed"
    else
      match pollUntilTerminal e.googleStatuses (fun _ => e.googleDataset) with
      | .success ds _ => .ok (ds.enum.map (fun p => normalizeGoogle (e.googleUuid p.1) e.now p.2))
      | .jobFailed _ => .error "Apify actor run failed"
      | .timeout _ => .error "Apify actor run timeout"

/-- Outcome of one call to the scoring model, as `scoreProfile` observes it:
the call threw / the response carried no content (`netError`), the content was
not valid JSON (`badJson`), or it parsed to an object whose `score`, `grade`
and `reasoning` keys may each be absent. -/
inductive LLMOutcome where
  | netError
  | badJson
  | json (score : Option Nat) (grade : Option String) (reasoning : Option String)
deriving DecidableEq

/-- Structured scoring result returned by `scoreProfile`. -/
structure ScoreResult where
  score : Nat
  grade : String
  reasoning : String
deriving DecidableEq

/-- Model of `scoreProfile` (route.ts lines 917-967): any throw along the way
(network error, missing content, `JSON.parse` failure) is caught and turned
into the default failure score; a successfully parsed object has each key
defaulted individually through `||`. -/
def scoreProfile (o : LLMOutcome) : ScoreResult :=
  match o with
  | .netError => ⟨0, "D", "Error during scoring"⟩
  | .badJson => ⟨0, "D", "Error during scoring"⟩
  | .json s g r => ⟨jsOrNum s 0, jsOrOpt g "D", jsOrOpt r "No reasoning provided"⟩

/-- Spread of one scoring result onto a lead, as the scoring loop's
`{ ...leads[i], icp_score, icp_grade, icpReasoning }` does (the three keys are
fresh on every normalized lead, so the spread appends them). -/
def applyScore (lead : Raw) (s : ScoreResult) : Raw :=
  lead ++ ([("icp_score", toString s.score), ("icp_grade", s.grade),
    ("icpReasoning", s.reasoning)] : Raw)

/-- The sequential scoring loop of the POST handler (route.ts lines
1021-1039): each lead is scored by its own model call (`outcomes i` is the
outcome of the call for lead i) and extended with the result. -/
def scoreStage (outcomes : Nat → LLMOutcome) (leads : List Raw) : List Raw :=
  leads.enum.map (fun p => applyScore p.2 (scoreProfile (outcomes p.1)))

/-- Request body of the POST handler after destructuring; `none` models an
absent key (`undefined`).  `limit` defaults to 10 and is never read by the
search functions (they cap items at 25 and 10 respectively). -/
structure GenRequest where
  method : Option String
  jobTitles : Option (List String)
  locations : Option (List String)
  industries : Option (List String)
  companySizes : Option (List String)
  limit : Nat

/-- JavaScript truthiness test for the destructured `method` string:
falsy when absent or empty. -/
def optStrFalsy (v : Option String) : Bool :=
  match v with
  | none => true
  | some s => s = ""

/-- Response sent by the POST handler: either a success payload carrying the
final leads, their count, the method and a timestamp, or an error payload
with a message and HTTP status (error timestamps elided). -/
inductive ApiResponse where
  | success (leads : List Raw) (count : Nat) (method : String) (timestamp : String)
  | error (message : String) (httpStatus : Nat)
deriving DecidableEq

/-- Discriminator: is the response a success payload. -/
def isSuccess : ApiResponse → Bool
  | .success _ _ _ _ => true
  | .error _ _ => false

/-- What the POST handler produces: the JSON response plus whether the lead
batch actually reached storage (`leads.length > 0`, insert attempted, and the
insert reported no error — the handler itself only logs a failed insert). -/
structure PostResult where
  response : ApiResponse
  persisted : Bool
deriving DecidableEq

/-- Scoring + persistence + success response, shared tail of both method
branches (route.ts lines 1019-1065): score only when `OPENAI_API_KEY` is set,
attempt the insert only for a non-empty batch, swallow any insert error, and
respond with the success payload either way. -/
def finishPipeline (e : ProviderEnv) (outcomes : Nat → LLMOutcome) (leads : List Raw)
    (method : String) : PostResult :=
  let scored := if e.openaiKeySet then scoreStage outcomes leads else leads
  { response := .success scored scored.length method e.now,
    persisted := decide (0 < scored.length) && !e.insertError }

/-- Model of the POST handler (route.ts lines 969-1078) over the collaborator
environment `e` and the per-lead scoring outcomes `outcomes`.  Validation
rejects a falsy `method`, `jobTitles` or `locations` before anything else;
each method branch re-checks its credentials, runs its search, and any
search error reaches the outer catch and becomes a 500 error response. -/
def handlePOST (req : GenRequest) (e : ProviderEnv) (outcomes : Nat → LLMOutcome) :
    PostResult :=
  if optStrFalsy req.method || req.jobTitles.isNone || req.locations.isNone then
    { response := .error "Missing required parameters" 400, persisted := false }
  else if req.method = some "apollo" then
    if ¬ e.apifyTokensConfigured then
      { response := .error "Apify API tokens not configured" 500, persisted := false }
    else
      match searchApolloLeads e with
      | .error msg => { response := .error msg 500, persisted := false }
      | .ok leads => finishPipeline e outcomes leads "apollo"
  else if req.method = some "google_apify" then
    if ¬ (e.googleKeysConfigured ∧ e.apifyTokensConfigured) then
      { response := .error "Google or Apify API credentials not configured" 500,
        persisted := false }
    else
      match searchGoogleLeads e with
      | .error msg => { response := .error msg 500, persisted := false }
      | .ok leads => finishPipeline e outcomes leads "google_apify"
  else
    { response := .error "Invalid method specified" 400, persisted := false }

/-- Scoring outcomes where the call for lead 0 throws and the call for lead 1
succeeds. -/
def outcomesC1 : Nat → LLMOutcome :=
  fun i => if i = 0 then .netError else .json (some 50) (some "B") (some "fit")

/-- Two-lead batch used to witness scoring isolation. -/
def leadsC1 : List Raw := [[("firstName", "A")], [("firstName", "B")]]

/-- Keys of the normalized shape that come from the raw record (the
generated id, timestamp and constant email_status excluded). -/
def identityKeys : List String :=
  ["firstName", "lastName", "fullName", "email", "jobTitle", "companyName",
   "companyIndustry", "companySize", "location", "linkedin_url"]

/-- Raw record missing the pre-joined full name, used to witness C9. -/
def rawC9 : Raw := [("firstName", "Ada")]

/-- Request with all required parameters, apollo method. -/
def reqApollo : GenRequest :=
  { method := some "apollo", jobTitles := some ["Operations Manager"],
    locations := some ["Texas"], industries := none, companySizes := none, limit := 10 }

/-- Request with all required parameters, google_apify method. -/
def reqGoogle : GenRequest :=
  { method := some "google_apify", jobTitles := some ["Operations Manager"],
    locations := some ["Texas"], industries := none, companySizes := none, limit := 10 }

/-- Request whose `jobTitles` key is absent. -/
def reqMissing : GenRequest :=
  { method := some "apollo", jobTitles := none, locations := some ["Texas"],
    industries := none, companySizes := none, limit := 10 }

/-- Environment where every collaborator behaves: credentials configured,
both scrape runs submit and succeed at the first poll, one raw record per
dataset, insert succeeds. -/
def envBase : ProviderEnv :=
  { apifyTokensConfigured := true
    googleKeysConfigured := true
    openaiKeySet := true
    apolloSubmitOk := true
    apolloStatuses := fun _ => .succeeded
    apolloDataset := [[("firstName", "A")]]
    apolloUuid := fun _ => "u"
    googleSearchOk := true
    googleLinks := ["https://www.linkedin.com/in/abc"]
    googleSubmitOk := true
    googleStatuses := fun _ => .succeeded
    googleDataset := [[("firstName", "B")]]
    googleUuid := fun _ => "v"
    insertError := false
    now := "T" }

/-- Scoring model behaving well on every call. -/
def outcomesOk : Nat → LLMOutcome := fun _ => .json (some 80) (some "A") (some "good fit")

/-- Environment in which the Supabase insert reports an error. -/
def envInsertFail : ProviderEnv := { envBase with insertError := true }

/-- Environment whose Apollo scrape succeeds with an empty dataset. -/
def envEmptyApollo : ProviderEnv := { envBase with apolloDataset := [] }

/-- Environment whose Google search returns no items. -/
def envEmptyGoogle : ProviderEnv := { envBase with googleLinks := [] }

/-- Environment whose LinkedIn-enrichment run reports FAILED. -/
def envGoogleFail : ProviderEnv := { envBase with googleStatuses := fun _ => .failed }

/-- Environment with no OPENAI_API_KEY configured. -/
def envNoKey : ProviderEnv := { envBase with openaiKeySet := false }

lemma pollGo_timeout_eq {α : Type} (statuses : Nat → JobStatus) (fetch : Nat → α) :
    ∀ fuel a t, (∀ i, i < fuel → statuses (a + i) = .running) →
      pollGo statuses fetch a t fuel = .timeout (t + 2000 * fuel) := by
  intro fuel
  induction fuel with
  | zero => intro a t _; simp [pollGo]
  | succ n ih =>
    intro a t h
    have h0 : statuses a = .running := by simpa using h 0 (by omega)
    have hrest : ∀ i, i < n → statuses (a + 1 + i) = .running := by
      intro i hi
      have := h (i + 1) (by omega)
      simpa [Nat.add_assoc, Nat.add_comm 1 i] using this
    have hrec := ih (a + 1) (t + 2000) hrest
    have harith : t + 2000 + 2000 * n = t + 2000 * (n + 1) := by ring
    simp only [pollGo, h0]
    rw [hrec, harith]

lemma pollGo_success_at {α : Type} (statuses : Nat → JobStatus) (fetch : Nat → α) :
    ∀ k fuel a t, k < fuel → (∀ i, i < k → statuses (a + i) = .running) →
      statuses (a + k) = .succeeded →
      pollGo statuses fetch a t fuel = .success (fetch (a + k)) (t + 2000 * (k + 1)) := by
  intro k
  induction k with
  | zero =>
    intro fuel a t hk _ hs
    match fuel, hk with
    | n + 1, _ =>
      have hs' : statuses a = .succeeded := by simpa using hs
      simp only [pollGo, hs']
      norm_num
  | succ m ih =>
    intro fuel a t hk h hs
    match fuel, hk with
    | n + 1, _ =>
      have h0 : statuses a = .running := by simpa using h 0 (by omega)
      have hrest : ∀ i, i < m → statuses (a + 1 + i) = .running := by
        intro i hi
        have := h (i + 1) (by omega)
        simpa [Nat.add_assoc, Nat.add_comm 1 i] using this
      have hs' : statuses (a + 1 + m) = .succeeded := by
        have heq : a + 1 + m = a + (m + 1) := by omega
        rw [heq]; exact hs
      have hrec := ih n (a + 1) (t + 2000) (by omega) hrest hs'
      have h1 : a + 1 + m = a + (m + 1) := by omega
      have h2 : t + 2000 + 2000 * (m + 1) = t + 2000 * (m + 1 + 1) := by ring
      simp only [pollGo, h0]
      rw [hrec, h1, h2]

lemma pollGo_failed_at {α : Type} (statuses : Nat → JobStatus) (fetch : Nat → α) :
    ∀ k fuel a t, k < fuel → (∀ i, i < k → statuses (a + i) = .running) →
      statuses (a + k) = .failed →
      pollGo statuses fetch a t fuel = .jobFailed (t + 2000 * (k + 1)) := by
  intro k
  induction k with
  | zero =>
    intro fuel a t hk _ hs
    match fuel, hk with
    | n + 1, _ =>
      have hs' : statuses a = .failed := by simpa using hs
      simp only [pollGo, hs']
  | succ m ih =>
    intro fuel a t hk h hs
    match fuel, hk with
    | n + 1, _ =>
      have h0 : statuses a = .running := by simpa using h 0 (by omega)
      have hrest : ∀ i, i < m → statuses (a + 1 + i) = .running := by
        intro i hi
        have := h (i + 1) (by omega)
        simpa [Nat.add_assoc, Nat.add_comm 1 i] using this
      have hs' : statuses (a + 1 + m) = .failed := by
        have heq : a + 1 + m = a + (m + 1) := by omega
        rw [heq]; exact hs
      have hrec := ih n (a + 1) (t + 2000) (by omega) hrest hs'
      have h2 : t + 2000 + 2000 * (m + 1) = t + 2000 * (m + 1 + 1) := by ring
      simp only [pollGo, h0]
      rw [hrec, h2]

lemma pollGo_trichotomy {α : Type} (statuses : Nat → JobStatus) (fetch : Nat → α) :
    ∀ fuel a t,
      pollGo statuses fetch a t fuel = .timeout (t + 2000 * fuel)
      ∨ (∃ k, k < fuel ∧ pollGo statuses fetch a t fuel = .jobFailed (t + 2000 * (k + 1)))
      ∨ (∃ k, k < fuel ∧
          pollGo statuses fetch a t fuel = .success (fetch (a + k)) (t + 2000 * (k + 1))) := by
  intro fuel
  induction fuel with
  | zero => intro a t; left; simp [pollGo]
  | succ n ih =>
    intro a t
    cases hst : statuses a with
    | succeeded =>
      right; right
      refine ⟨0, by omega, ?_⟩
      simp only [pollGo, hst]
      norm_num
    | failed =>
      right; left
      refine ⟨0, by omega, ?_⟩
      simp only [pollGo, hst]
    | running =>
      have step : pollGo statuses fetch a t (n + 1)
          = pollGo statuses fetch (a + 1) (t + 2000) n := by
        simp [pollGo, hst]
      rcases ih (a + 1) (t + 2000) with h | ⟨k, hk, h⟩ | ⟨k, hk, h⟩
      · left
        have harith : t + 2000 + 2000 * n = t + 2000 * (n + 1) := by ring
        rw [step, h, harith]
      · right; left
        refine ⟨k + 1, by omega, ?_⟩
        have harith : t + 2000 + 2000 * (k + 1) = t + 2000 * (k + 1 + 1) := by ring
        rw [step, h, harith]
      · right; right
        refine ⟨k + 1, by omega, ?_⟩
        have h1 : a + 1 + k = a + (k + 1) := by omega
        have h2 : t + 2000 + 2000 * (k + 1) = t + 2000 * (k + 1 + 1) := by ring
        rw [step, h, h1, h2]

/-- C5: for every submitted scrape job, the poll-until-terminal loop sleeps a
fixed 2000 ms per iteration and makes at most 30 status checks; a run that is
never terminal within the bound yields the timeout error at the 60 s ceiling,
a FAILED status at the first terminal check yields the distinct job-failed
error, a SUCCEEDED status yields the fetched dataset, and every execution of
the loop ends in exactly one of these three outcomes. -/
theorem claim_C5 {α : Type} (statuses : Nat → JobStatus) (fetch : Nat → α) :
    ((∀ i, i < 30 → statuses i = .running) →
      pollUntilTerminal statuses fetch = .timeout 60000)
  ∧ (∀ k, k < 30 → (∀ i, i < k → statuses i = .running) → statuses k = .failed →
      pollUntilTerminal statuses fetch = .jobFailed (2000 * (k + 1)))
  ∧ (∀ k, k < 30 → (∀ i, i < k → statuses i = .running) → statuses k = .succeeded →
      pollUntilTerminal statuses fetch = .success (fetch k) (2000 * (k + 1)))
  ∧ (pollUntilTerminal statuses fetch = .timeout 60000
      ∨ (∃ k, k < 30 ∧ pollUntilTerminal statuses fetch = .jobFailed (2000 * (k + 1)))
      ∨ (∃ k, k < 30 ∧
          pollUntilTerminal statuses fetch = .success (fetch k) (2000 * (k + 1)))) := by
  refine ⟨?_, ?_, ?_, ?_⟩
  · intro h
    have hr := pollGo_timeout_eq statuses fetch 30 0 0 (by intro i hi; simpa using h i hi)
    simpa [pollUntilTerminal] using hr
  · intro k hk hrun hf
    have hr := pollGo_failed_at statuses fetch k 30 0 0 hk
      (by intro i hi; simpa using hrun i hi) (by simpa using hf)
    simpa [pollUntilTerminal] using hr
  · intro k hk hrun hsucc
    have hr := pollGo_success_at statuses fetch k 30 0 0 hk
      (by intro i hi; simpa using hrun i hi) (by simpa using hsucc)
    simpa [pollUntilTerminal] using hr
  · rcases pollGo_trichotomy statuses fetch 30 0 0 with h | ⟨k, hk, h⟩ | ⟨k, hk, h⟩
    · left; simpa [pollUntilTerminal] using h
    · right; left; exact ⟨k, hk, by simpa [pollUntilTerminal] using h⟩
    · right; right; exact ⟨k, hk, by simpa [pollUntilTerminal] using h⟩

/-- Witness for C5: the three loop outcomes at concrete status streams. -/
theorem claim_C5_witness :
    pollUntilTerminal (fun _ => JobStatus.running) (fun i => i) = .timeout 60000
  ∧ pollUntilTerminal (fun _ => JobStatus.failed) (fun i => i) = .jobFailed 2000
  ∧ pollUntilTerminal (fun _ => JobStatus.succeeded) (fun i => i) = .success 0 2000 := by
  refine ⟨?_, ?_, ?_⟩
  · exact (claim_C5 _ _).1 (fun i _ => rfl)
  · have h := (claim_C5 (fun _ => JobStatus.failed) (fun i => i)).2.1 0 (by omega)
      (fun i hi => absurd hi (by omega)) rfl
    simpa using h
  · have h := (claim_C5 (fun _ => JobStatus.succeeded) (fun i => i)).2.2.1 0 (by omega)
      (fun i hi => absurd hi (by omega)) rfl
    simpa using h

/-- C1 counterexample: a scoring-model response that is valid JSON but misses
the expected `grade` and `reasoning` keys does not get the claimed default
failure score: the parsed score 85 is kept and the rationale reads
"No reasoning provided", not "Error during scoring". -/
theorem claim_C1_counterexample :
    scoreProfile (LLMOutcome.json (some 85) none none)
        = { score := 85, grade := "D", reasoning := "No reasoning provided" }
  ∧ scoreProfile (LLMOutcome.json (some 85) none none)
        ≠ { score := 0, grade := "D", reasoning := "Error during scoring" } := by
  decide

/-- C1 amended: a scoring call that throws (network error, missing content)
or returns non-JSON content yields score 0 / grade "D" / rationale
"Error during scoring"; a response that parses but misses keys has each key
defaulted individually (score to 0, grade to "D", reasoning to
"No reasoning provided"); and the batch loop scores every lead from its own
call outcome, so a failure for lead i never prevents lead j from being
scored. -/
theorem claim_C1_amended (outcomes : Nat → LLMOutcome) (leads : List Raw) :
    scoreProfile LLMOutcome.netError
        = { score := 0, grade := "D", reasoning := "Error during scoring" }
  ∧ scoreProfile LLMOutcome.badJson
        = { score := 0, grade := "D", reasoning := "Error during scoring" }
  ∧ (∀ s g r, scoreProfile (LLMOutcome.json s g r)
        = { score := jsOrNum s 0, grade := jsOrOpt g "D",
            reasoning := jsOrOpt r "No reasoning provided" })
  ∧ (scoreStage outcomes leads).length = leads.length
  ∧ (∀ i lead, leads[i]? = some lead →
      (scoreStage outcomes leads)[i]? = some (applyScore lead (scoreProfile (outcomes i)))) := by
  refine ⟨rfl, rfl, fun s g r => rfl, ?_, ?_⟩
  · simp [scoreStage]
  · intro i lead h
    simp [scoreStage, List.getElem?_map, List.getElem?_enum, h]

/-- Witness for the amended C1: with lead 0's call failing, lead 1 is still
scored from its own outcome. -/
theorem claim_C1_amended_witness :
    (scoreStage outcomesC1 leadsC1).length = 2
  ∧ (scoreStage outcomesC1 leadsC1)[1]?
      = some (applyScore [("firstName", "B")] (scoreProfile (outcomesC1 1))) := by
  constructor
  · exact (claim_C1_amended outcomesC1 leadsC1).2.2.2.1
  · exact (claim_C1_amended outcomesC1 leadsC1).2.2.2.2 1 [("firstName", "B")] (by decide)

@[simp] lemma jsGet_nil (k : String) : jsGet [] k = "" := rfl

@[simp] lemma jsGet_cons (k v k' : String) (r : Raw) :
    jsGet ((k, v) :: r) k' = if k = k' then v else jsGet r k' := by
  by_cases h : k = k' <;> simp [jsGet, List.find?_cons, h]

lemma jsOr_empty_right (a : String) : jsOr a "" = a := by
  by_cases h : a = "" <;> simp [jsOr, h]

lemma jsOr_absorb (a b : String) : jsOr (jsOr a b) b = jsOr a b := by
  by_cases h : a = "" <;> simp [jsOr, h]

/-- C8 counterexample: normalization is not idempotent.  The normalizer
reads the raw keys `linkedinUrl` / `profileUrl` but writes the canonical key
`linkedin_url`, so re-normalizing an already-normalized record (even with the
same generated id and timestamp) erases the LinkedIn URL. -/
theorem claim_C8_counterexample :
    normalizeApollo "u" "t" (normalizeApollo "u" "t" [("linkedinUrl", "https://www.linkedin.com/in/a")])
      ≠ normalizeApollo "u" "t" [("linkedinUrl", "https://www.linkedin.com/in/a")]
  ∧ jsGet (normalizeApollo "u" "t" [("linkedinUrl", "https://www.linkedin.com/in/a")])
      "linkedin_url" = "https://www.linkedin.com/in/a"
  ∧ jsGet (normalizeApollo "u" "t"
      (normalizeApollo "u" "t" [("linkedinUrl", "https://www.linkedin.com/in/a")]))
      "linkedin_url" = "" := by
  decide

/-- C8 amended: with the generated id and createdAt timestamp held fixed,
re-normalizing a normalized record reproduces it except for `linkedin_url`,
which is reset to the empty string (the raw keys the normalizer reads for it
are not part of the normalized shape). -/
theorem claim_C8_amended (u n : String) (x : Raw) :
    normalizeApollo u n (normalizeApollo u n x)
      = (normalizeApollo u n x).map
          (fun p => if p.1 = "linkedin_url" then (p.1, "") else p) := by
  simp only [normalizeApollo, jsGet_cons, jsGet_nil, List.map_cons, List.map_nil]
  simp [jsOr_absorb, jsOr_empty_right, jsOr]
  constructor
  · intro h
    by_cases hf : jsGet x "fullName" = ""
    · simp [hf]
    · simp [hf] at h ⊢
  · intro h
    exact h.symm

/-- C9: both normalizers total out missing raw fields to the empty string
(a record with every field missing still normalizes, every derived field
empty), and when the raw record carries no pre-joined `fullName` the display
name is composed as trim(first + " " + last). -/
theorem claim_C9 (u n : String) (x : Raw) (h : jsGet x "fullName" = "") :
    jsGet (normalizeApollo u n x) "fullName"
      = strTrim (jsGet x "firstName" ++ " " ++ jsGet x "lastName")
  ∧ jsGet (normalizeGoogle u n x) "fullName"
      = strTrim (jsGet x "firstName" ++ " " ++ jsGet x "lastName")
  ∧ (∀ k, k ∈ identityKeys →
      jsGet (normalizeApollo u n []) k = "" ∧ jsGet (normalizeGoogle u n []) k = "") := by
  refine ⟨?_, ?_, ?_⟩
  · simp [normalizeApollo, h, jsOr]
  · simp [normalizeGoogle, h, jsOr]
  · intro k hk
    fin_cases hk <;> exact ⟨rfl, rfl⟩

/-- Witness for C9 at a concrete record: the display name is composed from
the name parts and evaluates to "Ada". -/
theorem claim_C9_witness :
    jsGet (normalizeApollo "u" "t" rawC9) "fullName"
      = strTrim (jsGet rawC9 "firstName" ++ " " ++ jsGet rawC9 "lastName")
  ∧ jsGet (normalizeGoogle "u" "t" rawC9) "fullName"
      = strTrim (jsGet rawC9 "firstName" ++ " " ++ jsGet rawC9 "lastName")
  ∧ jsGet (normalizeApollo "u" "t" rawC9) "fullName" = "Ada" := by
  have h := claim_C9 "u" "t" rawC9 (by decide)
  exact ⟨h.1, h.2.1, by decide⟩

/-- C2 counterexample: with sourcing and scoring succeeding and the storage
insert failing, the handler still responds with the success payload (one
lead, count 1) even though nothing was persisted; the claimed terminal error
outcome never happens. -/
theorem claim_C2_counterexample :
    (handlePOST reqApollo envInsertFail outcomesOk).persisted = false
  ∧ isSuccess (handlePOST reqApollo envInsertFail outcomesOk).response = true
  ∧ (handlePOST reqApollo envInsertFail outcomesOk).response
      = .success (scoreStage outcomesOk [normalizeApollo "u" "T" [("firstName", "A")]])
          1 "apollo" "T" := by
  decide

/-- C2 amended: a persistence failure is logged and swallowed, never turned
into an error outcome — the handler response is entirely independent of
whether the insert failed, and when the insert fails nothing is persisted. -/
theorem claim_C2_amended (req : GenRequest) (e : ProviderEnv) (o : Nat → LLMOutcome) :
    (handlePOST req { e with insertError := true } o).response
      = (handlePOST req { e with insertError := false } o).response
  ∧ (handlePOST req { e with insertError := true } o).persisted = false := by
  have hA : searchApolloLeads { e with insertError := true } = searchApolloLeads e := rfl
  have hA2 : searchApolloLeads { e with insertError := false } = searchApolloLeads e := rfl
  have hG : searchGoogleLeads { e with insertError := true } = searchGoogleLeads e := rfl
  have hG2 : searchGoogleLeads { e with insertError := false } = searchGoogleLeads e := rfl
  constructor
  · simp only [handlePOST, hA, hA2, hG, hG2]
    split_ifs <;> try rfl
    · cases searchApolloLeads e <;> simp [finishPipeline]
    · cases searchGoogleLeads e <;> simp [finishPipeline]
  · simp only [handlePOST, hA, hG]
    split_ifs <;> try rfl
    · cases searchApolloLeads e <;> simp [finishPipeline]
    · cases searchGoogleLeads e <;> simp [finishPipeline]

/-- C7: a request missing the method, the role/title terms or the location
terms is rejected with the synchronous 400 validation error, and the result
does not depend on any collaborator behaviour at all — no provider I/O can
influence it because none is started. -/
theorem claim_C7 (req : GenRequest) (e e' : ProviderEnv) (o o' : Nat → LLMOutcome)
    (h : optStrFalsy req.method = true ∨ req.jobTitles = none ∨ req.locations = none) :
    handlePOST req e o
      = { response := .error "Missing required parameters" 400, persisted := false }
  ∧ handlePOST req e o = handlePOST req e' o' := by
  have hcond : (optStrFalsy req.method || req.jobTitles.isNone || req.locations.isNone) = true := by
    rcases h with h | h | h <;> simp [h]
  constructor <;> simp [handlePOST, hcond]

/-- Witness for C7: a request without `jobTitles` gets the validation error,
identically under two environments that differ in scrape results. -/
theorem claim_C7_witness :
    handlePOST reqMissing envBase outcomesOk
      = { response := .error "Missing required parameters" 400, persisted := false }
  ∧ handlePOST reqMissing envBase outcomesOk
      = handlePOST reqMissing envEmptyApollo outcomesOk :=
  claim_C7 reqMissing envBase envEmptyApollo outcomesOk outcomesOk (Or.inr (Or.inl rfl))

@[simp] lemma optStrFalsy_apollo : optStrFalsy (some "apollo") = false := by decide

@[simp] lemma optStrFalsy_google : optStrFalsy (some "google_apify") = false := by decide

/-- C3 counterexample: for the search-derived method, a FAILED enrichment run
aborts the whole request with the 500 error response — the pipeline does not
degrade to a completed outcome with the un-enriched subset. -/
theorem claim_C3_counterexample :
    handlePOST reqGoogle envGoogleFail outcomesOk
      = { response := .error "Apify actor run failed" 500, persisted := false }
  ∧ isSuccess (handlePOST reqGoogle envGoogleFail outcomesOk).response = false := by
  decide

/-- C3 amended: enrichment failure is not degradable — a FAILED enrichment
run or an enrichment polling timeout each abort the run with the
corresponding 500 error; the only degraded path is a web search that yields
no usable LinkedIn URLs, which completes successfully with zero leads. -/
theorem claim_C3_amended (req : GenRequest) (e : ProviderEnv) (o : Nat → LLMOutcome)
    (hm : req.method = some "google_apify") (hj : req.jobTitles.isNone = false)
    (hl : req.locations.isNone = false) (hgc : e.googleKeysConfigured = true)
    (hac : e.apifyTokensConfigured = true) (hok : e.googleSearchOk = true) :
    (e.googleLinks = [] →
      handlePOST req e o
        = { response := .success [] 0 "google_apify" e.now, persisted := false })
  ∧ (∀ t, (e.googleLinks.filter (fun u => strIncludes u "linkedin.com/in/")).take 10 ≠ [] →
      e.googleSubmitOk = true →
      pollUntilTerminal e.googleStatuses (fun _ => e.googleDataset) = .jobFailed t →
      handlePOST req e o
        = { response := .error "Apify actor run failed" 500, persisted := false })
  ∧ (∀ t, (e.googleLinks.filter (fun u => strIncludes u "linkedin.com/in/")).take 10 ≠ [] →
      e.googleSubmitOk = true →
      pollUntilTerminal e.googleStatuses (fun _ => e.googleDataset) = .timeout t →
      handlePOST req e o
        = { response := .error "Apify actor run timeout" 500, persisted := false }) := by
  refine ⟨?_, ?_, ?_⟩
  · intro hlinks
    have hsearch : searchGoogleLeads e = .ok [] := by
      simp [searchGoogleLeads, hgc, hac, hok, hlinks]
    simp [handlePOST, hm, hj, hl, hgc, hac, hsearch, finishPipeline, scoreStage]
  · intro t hurls hsub hpoll
    have hlinksne : e.googleLinks.isEmpty = false := by
      rcases hcase : e.googleLinks with _ | ⟨a, l⟩
      · exact absurd (by rw [hcase]; rfl) hurls
      · rfl
    have hurlsne : ((e.googleLinks.filter
        (fun u => strIncludes u "linkedin.com/in/")).take 10).isEmpty = false := by
      rcases hcase : (e.googleLinks.filter
          (fun u => strIncludes u "linkedin.com/in/")).take 10 with _ | ⟨a, l⟩
      · exact absurd hcase hurls
      · rfl
    have hsearch : searchGoogleLeads e = .error "Apify actor run failed" := by
      simp [searchGoogleLeads, hgc, hac, hok, hlinksne, hurlsne, hsub, hpoll]
    simp [handlePOST, hm, hj, hl, hgc, hac, hsearch]
  · intro t hurls hsub hpoll
    have hlinksne : e.googleLinks.isEmpty = false := by
      rcases hcase : e.googleLinks with _ | ⟨a, l⟩
      · exact absurd (by rw [hcase]; rfl) hurls
      · rfl
    have hurlsne : ((e.googleLinks.filter
        (fun u => strIncludes u "linkedin.com/in/")).take 10).isEmpty = false := by
      rcases hcase : (e.googleLinks.filter
          (fun u => strIncludes u "linkedin.com/in/")).take 10 with _ | ⟨a, l⟩
      · exact absurd hcase hurls
      · rfl
    have hsearch : searchGoogleLeads e = .error "Apify actor run timeout" := by
      simp [searchGoogleLeads, hgc, hac, hok, hlinksne, hurlsne, hsub, hpoll]
    simp [handlePOST, hm, hj, hl, hgc, hac, hsearch]

/-- Witness for the amended C3: a zero-URL search completes with zero leads,
while a FAILED enrichment run aborts with the 500 error. -/
theorem claim_C3_amended_witness :
    handlePOST reqGoogle envEmptyGoogle outcomesOk
      = { response := .success [] 0 "google_apify" "T", persisted := false }
  ∧ handlePOST reqGoogle envGoogleFail outcomesOk
      = { response := .error "Apify actor run failed" 500, persisted := false } := by
  constructor
  · exact (claim_C3_amended reqGoogle envEmptyGoogle outcomesOk rfl (by decide) (by decide)
      rfl rfl rfl).1 rfl
  · exact (claim_C3_amended reqGoogle envGoogleFail outcomesOk rfl (by decide) (by decide)
      rfl rfl rfl).2.1 2000 (by decide) rfl (by decide)

/-- C4: sourcing that comes back empty is success, not error — an Apollo run
succeeding with an empty dataset, or a Google search with no items, still
produces the success response with a total lead count of 0. -/
theorem claim_C4 (req : GenRequest) (e : ProviderEnv) (o : Nat → LLMOutcome)
    (hj : req.jobTitles.isNone = false) (hl : req.locations.isNone = false) :
    (req.method = some "apollo" → e.apifyTokensConfigured = true →
      e.apolloSubmitOk = true → e.apolloStatuses 0 = .succeeded → e.apolloDataset = [] →
      handlePOST req e o = { response := .success [] 0 "apollo" e.now, persisted := false })
  ∧ (req.method = some "google_apify" → e.googleKeysConfigured = true →
      e.apifyTokensConfigured = true → e.googleSearchOk = true → e.googleLinks = [] →
      handlePOST req e o
        = { response := .success [] 0 "google_apify" e.now, persisted := false }) := by
  constructor
  · intro hm hconf hsub hst hds
    have hp := pollGo_success_at e.apolloStatuses (fun _ => e.apolloDataset) 0 30 0 0
      (by omega) (fun i hi => absurd hi (by omega)) (by simpa using hst)
    simp at hp
    rw [hds] at hp
    have hsearch : searchApolloLeads e = .ok [] := by
      simp [searchApolloLeads, hconf, hsub, pollUntilTerminal, hds, hp]
    simp [handlePOST, hm, hj, hl, hconf, hsearch, finishPipeline, scoreStage]
  · intro hm hgc hac hok hlinks
    have hsearch : searchGoogleLeads e = .ok [] := by
      simp [searchGoogleLeads, hgc, hac, hok, hlinks]
    simp [handlePOST, hm, hj, hl, hgc, hac, hsearch, finishPipeline, scoreStage]

/-- Witness for C4: concrete empty-sourcing runs for both methods complete
with count 0. -/
theorem claim_C4_witness :
    handlePOST reqApollo envEmptyApollo outcomesOk
      = { response := .success [] 0 "apollo" "T", persisted := false }
  ∧ handlePOST reqGoogle envEmptyGoogle outcomesOk
      = { response := .success [] 0 "google_apify" "T", persisted := false } := by
  constructor
  · exact (claim_C4 reqApollo envEmptyApollo outcomesOk (by decide) (by decide)).1
      rfl rfl rfl rfl rfl
  · exact (claim_C4 reqGoogle envEmptyGoogle outcomesOk (by decide) (by decide)).2
      rfl rfl rfl rfl rfl

/-- C6 counterexample: the handler's result is a function of the scrape-run
dataset — two environments identical except for the dataset produce different
responses — so the response is not returned before scraping happens, and the
successful response carries the scored leads themselves, not a session id. -/
theorem claim_C6_counterexample :
    handlePOST reqApollo envEmptyApollo outcomesOk
      ≠ handlePOST reqApollo envBase outcomesOk
  ∧ (handlePOST reqApollo envBase outcomesOk).response
      = .success (scoreStage outcomesOk [normalizeApollo "u" "T" [("firstName", "A")]])
          1 "apollo" "T" := by
  decide

/-- C6 amended: the generation route is synchronous — on the apollo path its
response is computed from the completed search: it is the success payload
carrying the final (scored) leads and their count, which equals the number of
sourced leads; no session id exists in the response. -/
theorem claim_C6_amended (req : GenRequest) (e : ProviderEnv) (o : Nat → LLMOutcome)
    (L : List Raw) (hm : req.method = some "apollo") (hj : req.jobTitles.isNone = false)
    (hl : req.locations.isNone = false) (hconf : e.apifyTokensConfigured = true)
    (hsearch : searchApolloLeads e = .ok L) :
    ∃ final : List Raw,
      (handlePOST req e o).response = .success final final.length "apollo" e.now
      ∧ final.length = L.length := by
  refine ⟨if e.openaiKeySet then scoreStage o L else L, ?_, ?_⟩
  · simp [handlePOST, hm, hj, hl, hconf, hsearch, finishPipeline]
  · by_cases hk : e.openaiKeySet <;> simp [hk, scoreStage]

/-- Witness for the amended C6: the concrete run returns the leads with count
1 in its response body. -/
theorem claim_C6_amended_witness :
    ∃ final : List Raw,
      (handlePOST reqApollo envBase outcomesOk).response
        = .success final final.length "apollo" "T"
      ∧ final.length = 1 := by
  have h := claim_C6_amended reqApollo envBase outcomesOk
    [normalizeApollo "u" "T" [("firstName", "A")]] rfl (by decide) (by decide) rfl rfl
  exact h

/-- Normalized leads never carry scoring fields: all three keys the scoring
loop would add are absent from the normalizer output. -/
lemma normalizeApollo_no_icp (u n : String) (p : Raw) :
    jsHas (normalizeApollo u n p) "icp_score" = false
  ∧ jsHas (normalizeApollo u n p) "icp_grade" = false
  ∧ jsHas (normalizeApollo u n p) "icpReasoning" = false :=
  ⟨rfl, rfl, rfl⟩

/-- C10: with no OPENAI_API_KEY configured, the scoring stage is skipped
entirely — the response returns the sourced leads untouched (no icp_score,
icp_grade or icpReasoning field on any of them), the batch is persisted when
non-empty and the insert succeeds, and the run still reports success. -/
theorem claim_C10 (req : GenRequest) (e : ProviderEnv) (o : Nat → LLMOutcome) (L : List Raw)
    (hm : req.method = some "apollo") (hj : req.jobTitles.isNone = false)
    (hl : req.locations.isNone = false) (hconf : e.apifyTokensConfigured = true)
    (hsub : e.apolloSubmitOk = true) (hst : e.apolloStatuses 0 = .succeeded)
    (hkey : e.openaiKeySet = false)
    (hL : L = e.apolloDataset.enum.map (fun p => normalizeApollo (e.apolloUuid p.1) e.now p.2)) :
    handlePOST req e o
      = { response := .success L L.length "apollo" e.now,
          persisted := decide (0 < L.length) && !e.insertError }
  ∧ ∀ lead, lead ∈ L → jsHas lead "icp_score" = false ∧ jsHas lead "icp_grade" = false
      ∧ jsHas lead "icpReasoning" = false := by
  have hp := pollGo_success_at e.apolloStatuses (fun _ => e.apolloDataset) 0 30 0 0
    (by omega) (fun i hi => absurd hi (by omega)) (by simpa using hst)
  simp at hp
  have hsearch : searchApolloLeads e = .ok L := by
    simp [searchApolloLeads, hconf, hsub, pollUntilTerminal, hp, hL]
  constructor
  · simp [handlePOST, hm, hj, hl, hconf, hsearch, finishPipeline, hkey]
  · intro lead hmem
    rw [hL] at hmem
    obtain ⟨p, hp2, hlead⟩ := List.mem_map.mp hmem
    rw [← hlead]
    exact normalizeApollo_no_icp _ _ _

/-- Witness for C10: with the key unset, the single sourced lead comes back
with no scoring fields and the run succeeds and persists. -/
theorem claim_C10_witness :
    handlePOST reqApollo envNoKey outcomesOk
      = { response := .success [normalizeApollo "u" "T" [("firstName", "A")]] 1 "apollo" "T",
          persisted := true }
  ∧ jsHas (normalizeApollo "u" "T" [("firstName", "A")]) "icp_score" = false := by
  have h := claim_C10 reqApollo envNoKey outcomesOk
    [normalizeApollo "u" "T" [("firstName", "A")]] rfl (by decide) (by decide) rfl rfl rfl rfl rfl
  exact ⟨h.1, (h.2 _ (by decide)).1⟩
